import Mathlib

/-!
Verification of the AdGuard for Safari filter subscription and update
orchestrator (filters manager and filters-update service) against its
natural-language specification.

The JavaScript modules are shallowly embedded as pure Lean functions.
Object mutation through the registry cache becomes explicit state passing
on a `St` record; event emission via the notifier becomes an explicit
`List Event` trace returned by each operation; a JavaScript throw becomes
`Except.error`; the network backends (remote metadata client, rule
downloads, custom-filter updates) become an oracle record `Backend`
supplying the outcome of each asynchronous completion.  JavaScript
truthiness of possibly-undefined fields is modelled with `Option` and
explicit truthiness helpers.
-/

namespace AdGuard

/-- Truthiness of a possibly-undefined boolean field: only `true` is truthy. -/
def jsTruthy : Option Bool → Bool
  | some b => b
  | none => false

/-- Truthiness of a possibly-undefined string field: a nonempty string is truthy. -/
def jsStrTruthy : Option String → Bool
  | some s => s ≠ ""
  | none => false

/-- Truthiness test for a possibly-undefined numeric timestamp:
`undefined` and `0` are falsy in JavaScript. -/
def jsFalsyTime : Option Int → Bool
  | none => true
  | some t => t = 0

/-- A filter object held by the registry cache (and by the custom-filter
store).  Versions are modelled parsed into their dotted numeric
components. -/
structure Filter where
  filterId : Nat
  groupId : Nat
  version : Option (List Nat)
  customUrl : Option String
  enabled : Option Bool
  installed : Option Bool
  loaded : Option Bool
  trusted : Option Bool
  lastCheckTime : Option Int
  lastUpdateTime : Option Int
  timeUpdated : Option Int
  isDownloading : Bool
deriving DecidableEq, Repr

/-- A group object held by the registry cache.  `enabled = none` models the
JavaScript `undefined` sentinel of a group that was never toggled. -/
structure Group where
  groupId : Nat
  enabled : Option Bool
deriving DecidableEq, Repr

/-- A remote metadata record for one filter, as delivered by the remote
metadata client (after `createSubscriptionFilterFromJSON`). -/
structure FilterMetadata where
  filterId : Nat
  version : Option (List Nat)
  timeUpdated : Option Int
deriving DecidableEq, Repr

/-- Persisted per-filter version info, as stored by the filters-state module. -/
structure VersionInfo where
  version : List Nat
  lastCheckTime : Int
  lastUpdateTime : Int
deriving DecidableEq, Repr

/-- Persisted per-filter state info, as stored by the filters-state module. -/
structure StateInfo where
  enabled : Bool
  installed : Bool
  loaded : Bool
deriving DecidableEq, Repr

/-- Persisted per-group state info. -/
structure GroupStateInfo where
  enabled : Bool
deriving DecidableEq, Repr

/-- Association-list lookup by numeric identifier. -/
def lookupId {α : Type} : List (Nat × α) → Nat → Option α
  | [], _ => none
  | (k, v) :: rest, i => if k = i then some v else lookupId rest i

/-- The durable key-value storage consumed through the filters-state module
and the storage module. -/
structure Persisted where
  filtersVersionInfo : List (Nat × VersionInfo)
  filtersStateInfo : List (Nat × StateInfo)
  groupsStateInfo : List (Nat × GroupStateInfo)
  filtersUpdateLastCheck : Option Int
deriving DecidableEq, Repr

/-- The mutable state visible to the orchestrator: the registry cache of
filters and groups, the custom-filter store, the persisted storage and the
settings value read by the scheduler. -/
structure St where
  filters : List Filter
  groups : List Group
  customStore : List Filter
  persisted : Persisted
  updatePeriodHours : Int
deriving DecidableEq, Repr

/-- Configuration constants read from the application config. -/
structure Config where
  searchAndSelfPromoFilterId : Nat
  customFiltersGroupId : Nat
deriving DecidableEq, Repr

/-- Payload of the update-filters-show-popup notification.
`updatedFilters = none` models the key being absent from the payload. -/
structure PopupPayload where
  success : Bool
  updatedFilters : Option (List Nat)
  forceUpdate : Bool
  filtersUpdateLastCheck : Int
deriving DecidableEq, Repr

/-- Events published on the notification bus, tagged by the identifier of
the filter or group carried in the payload. -/
inductive Event where
  | filterEnableDisable (id : Nat)
  | filterGroupEnableDisable (gid : Nat)
  | filterAddRemove (id : Nat)
  | startDownloadFilter (id : Nat)
  | successDownloadFilter (id : Nat)
  | errorDownloadFilter (id : Nat)
  | updateFilterRules (id : Nat)
  | updateFiltersShowPopup (p : PopupPayload)
deriving DecidableEq, Repr

/-- Oracle for the asynchronous collaborators: the current clock value, the
outcome of the batched metadata fetch, the per-filter outcome of a rule
download (first argument is the forceRemote flag), and the per-filter
outcome of a custom-filter update. -/
structure Backend where
  now : Int
  metadataResponse : Option (List FilterMetadata)
  ruleFetch : Bool → Nat → Bool
  customUpdate : Nat → Bool

/-! ## Registry cache operations (the external cache module contract) -/

/-- Lookup of a filter in a cache list by identifier. -/
def findFilter : List Filter → Nat → Option Filter
  | [], _ => none
  | f :: fs, i => if f.filterId = i then some f else findFilter fs i

/-- Lookup of a group in a cache list by identifier. -/
def findGroup : List Group → Nat → Option Group
  | [], _ => none
  | g :: gs, i => if g.groupId = i then some g else findGroup gs i

/-- In-place mutation of the filter object with the identifier of `f`:
every cache slot holding that identifier now holds `f`. -/
def setFilterList : List Filter → Filter → List Filter
  | [], _ => []
  | h :: t, f => (if h.filterId = f.filterId then f else h) :: setFilterList t f

/-- In-place mutation of the group object with the identifier of `g`. -/
def setGroupList : List Group → Group → List Group
  | [], _ => []
  | h :: t, g => (if h.groupId = g.groupId then g else h) :: setGroupList t g

/-- `cache.getFilter(filterId)`: absent identifiers yield `none`. -/
def getFilter (st : St) (i : Nat) : Option Filter :=
  findFilter st.filters i

/-- `cache.getGroup(groupId)`. -/
def getGroup (st : St) (i : Nat) : Option Group :=
  findGroup st.groups i

/-- Writing a mutated filter object back to the registry state. -/
def setFilter (st : St) (f : Filter) : St :=
  { st with filters := setFilterList st.filters f }

/-- Writing a mutated group object back to the registry state. -/
def setGroup (st : St) (g : Group) : St :=
  { st with groups := setGroupList st.groups g }

/-! ## Modelled collaborator utilities -/

/-- Recursive worker for de-duplication, carrying the identifiers already
seen. -/
def removeDupGo (seen : List Nat) : List Nat → List Nat
  | [] => []
  | x :: xs => if x ∈ seen then removeDupGo seen xs else x :: removeDupGo (x :: seen) xs

/-- Modelled from the spec: `collections.removeDuplicates` (utility module not
under src) de-duplicates an identifier list, keeping the first occurrence of
each identifier, preserving order. -/
def removeDuplicates (l : List Nat) : List Nat :=
  removeDupGo [] l

/-- Modelled from the spec: `subscriptions.groupHasEnabledStatus(groupId)`
(subscriptions module not under src) tells whether the group has ever been
toggled, i.e. its `enabled` property is not `undefined`. -/
def groupHasEnabledStatus (st : St) (gid : Nat) : Bool :=
  match getGroup st gid with
  | some g => g.enabled.isSome
  | none => false

/-- Strictly-greater comparison of dotted numeric versions, componentwise
with implicit zero padding of the shorter version. -/
def versionGt : List Nat → List Nat → Bool
  | [], [] => false
  | a :: as, [] => if a > 0 then true else versionGt as []
  | [], b :: bs => if b > 0 then false else versionGt [] bs
  | a :: as, b :: bs => if a > b then true else if a < b then false else versionGt as bs

/-- Modelled from the spec: `versionUtils.isGreaterVersion` (utility module
not under src) performs a semantic-version comparison; an absent local
version compares as the zero version. -/
def isGreaterVersion (a : List Nat) (b : Option (List Nat)) : Bool :=
  versionGt a (b.getD [])

/-! ## Filter lifecycle manager (filters manager module) -/

/-- `filtersState.getFiltersState()[filterId].enabled` guarded the JavaScript
way: `filter && stateInfo && stateInfo.enabled`. -/
def isFilterEnabled (st : St) (i : Nat) : Bool :=
  (getFilter st i).isSome &&
    (match lookupId st.persisted.filtersStateInfo i with
     | some si => si.enabled
     | none => false)

/-- `enableGroup(groupId)`: silent no-op when the group is unknown or its
`enabled` property is already truthy; otherwise sets the flag and publishes
one group enable-disable event. -/
def enableGroup (st : St) (gid : Nat) : St × List Event :=
  match getGroup st gid with
  | none => (st, [])
  | some g =>
    if jsTruthy g.enabled then (st, [])
    else (setGroup st { g with enabled := some true }, [Event.filterGroupEnableDisable gid])

/-- `disableGroup(groupId)`: silent no-op when the group is unknown or its
`enabled` property is not truthy; otherwise clears the flag and publishes one
group enable-disable event. -/
def disableGroup (st : St) (gid : Nat) : St × List Event :=
  match getGroup st gid with
  | none => (st, [])
  | some g =>
    if jsTruthy g.enabled then
      (setGroup st { g with enabled := some false }, [Event.filterGroupEnableDisable gid])
    else (st, [])

/-- `enableFilter(filterId)`: the source dereferences the cache lookup
without a guard (`filter.enabled = true`), so an absent filter identifier
raises a TypeError, modelled as `Except.error`.  On a present filter it sets
the enabled flag, conditionally force-enables the group, and publishes a
filter enable-disable event. -/
def enableFilter (cfg : Config) (st : St) (i : Nat) : Except Unit (St × List Event) :=
  match getFilter st i with
  | none => .error ()
  | some f =>
    let f1 := { f with enabled := some true }
    let st1 := setFilter st f1
    let gid := f1.groupId
    let r2 :=
      if !groupHasEnabledStatus st1 gid then enableGroup st1 gid
      else if i = cfg.searchAndSelfPromoFilterId ∨ gid = cfg.customFiltersGroupId then
        enableGroup st1 gid
      else (st1, [])
    .ok (r2.1, r2.2 ++ [Event.filterEnableDisable i])

/-- The body of the `disableFilters` loop over an already de-duplicated
identifier list.  The source `return`s out of the whole loop on the first
identifier whose filter is not currently enabled. -/
def disableList (st : St) : List Nat → St × List Event
  | [] => (st, [])
  | i :: rest =>
    if isFilterEnabled st i then
      match getFilter st i with
      | some f =>
        let st1 := setFilter st { f with enabled := some false }
        let r := disableList st1 rest
        (r.1, Event.filterEnableDisable i :: r.2)
      | none => (st, [])
    else (st, [])

/-- `disableFilters(filterIds)`: de-duplicates the ids, then disables them in
order with the early-return short circuit of `disableList`. -/
def disableFilters (st : St) (ids : List Nat) : St × List Event :=
  disableList st (removeDuplicates ids)

/-- Merging one registry filter object with the persisted version and state
info, as done in place by the `getFilters` loop. -/
def mergeFilter (p : Persisted) (f : Filter) : Filter :=
  let f1 :=
    match lookupId p.filtersVersionInfo f.filterId with
    | some vi =>
      { f with
        version := some vi.version
        lastCheckTime := some vi.lastCheckTime
        lastUpdateTime := some vi.lastUpdateTime }
    | none => f
  match lookupId p.filtersStateInfo f.filterId with
  | some si =>
    { f1 with
      enabled := some si.enabled
      installed := some si.installed
      loaded := some si.loaded }
  | none => f1

/-- `getFilters()`: merges every registry filter object in place with the
persisted info and returns the merged collection (the very objects the
registry now holds). -/
def getFilters (st : St) : St × List Filter :=
  let merged := st.filters.map (mergeFilter st.persisted)
  ({ st with filters := merged }, merged)

/-- Merging one registry group object with the persisted group state. -/
def mergeGroup (p : Persisted) (g : Group) : Group :=
  match lookupId p.groupsStateInfo g.groupId with
  | some si => { g with enabled := some si.enabled }
  | none => g

/-- `getGroups()`: merges every registry group object in place with the
persisted state.  The source function has no return statement, so its
return value is `undefined`, modelled as `none`. -/
def getGroups (st : St) : St × Option (List Group) :=
  ({ st with groups := st.groups.map (mergeGroup st.persisted) }, none)

/-! ## Update scheduler (filters-update module) -/

/-- Five-minute skip window for recently checked filters, in milliseconds. -/
def ENABLED_FILTERS_SKIP_TIMEOUT : Int := 5 * 60 * 1000

/-- `setFiltersUpdateLastCheck`: durable write of the last-check timestamp. -/
def setFiltersUpdateLastCheck (st : St) (v : Int) : St :=
  { st with persisted := { st.persisted with filtersUpdateLastCheck := some v } }

/-- The update-period gate of the selection loop:
`forceUpdate || (!filter.lastCheckTime || (Date.now() - filter.lastCheckTime) >= updateFiltersPeriodInMs)`. -/
def needUpdate (now periodMs : Int) (force : Bool) (f : Filter) : Bool :=
  force || jsFalsyTime f.lastCheckTime ||
    (match f.lastCheckTime with
     | none => false
     | some t => now - t ≥ periodMs)

/-- `selectFilterIdsToUpdate(forceUpdate, filtersToUpdate)`: partitions the
candidates into built-in filter ids and custom filter ids.  Custom
candidates come from the custom-filter store, restricted to the optional
subset (matched by id) and to enabled filters.  Built-in candidates come
from the subset when supplied, else from the whole registry cache, and must
be installed, enabled, due per the update period, and non-custom.  The
update period is read from the settings at call time. -/
def selectFilterIdsToUpdate (now : Int) (st : St) (force : Bool)
    (sub : Option (List Filter)) : List Nat × List Nat :=
  let customFilterIds :=
    ((st.customStore.filter (fun f =>
        match sub with
        | none => true
        | some l => l.any (fun x => x.filterId = f.filterId))).filter
      (fun f => jsTruthy f.enabled)).map (fun f => f.filterId)
  let filters := match sub with | none => st.filters | some l => l
  let periodMs := st.updatePeriodHours * 3600000
  let filterIds :=
    (filters.filter (fun f =>
        jsTruthy f.installed && jsTruthy f.enabled && needUpdate now periodMs force f
          && !jsStrTruthy f.customUrl)).map (fun f => f.filterId)
  (filterIds, customFilterIds)

/-- Converting a filter object into the metadata shape, used where the
source passes the filter itself as the metadata argument. -/
def metaOfFilter (f : Filter) : FilterMetadata :=
  { filterId := f.filterId, version := f.version, timeUpdated := f.timeUpdated }

/-- `loadFilterRules(filterMetadata, forceRemote, callback)`: re-fetches the
filter from the cache, marks it downloading, publishes a start event, then
on fetch success clears the transient flag, writes version, update and check
times and the loaded flag and publishes success and rules events; on failure
clears the flag and publishes an error event.  An absent filter identifier
makes the source throw before any event (the executor rejects), modelled as
a silent failure outcome. -/
def loadFilterRules (be : Backend) (forceRemote : Bool) (st : St)
    (m : FilterMetadata) : St × List Event × Bool :=
  match getFilter st m.filterId with
  | none => (st, [], false)
  | some f =>
    if be.ruleFetch forceRemote f.filterId then
      let f1 :=
        { f with
          isDownloading := false
          version := m.version
          lastUpdateTime := m.timeUpdated
          lastCheckTime := some be.now
          loaded := some true }
      (setFilter st f1,
        [Event.startDownloadFilter f.filterId, Event.successDownloadFilter f.filterId,
          Event.updateFilterRules f.filterId], true)
    else
      (setFilter st { f with isDownloading := false },
        [Event.startDownloadFilter f.filterId, Event.errorDownloadFilter f.filterId], false)

/-- `loadFiltersFromBackend(filterMetadataList, callback)`: one independent
rule download per metadata entry; every download runs (side effects and
events happen for each), successes are accumulated, and the aggregate
result is the accumulated id list only when every download succeeded,
otherwise the bare failure `none`. -/
def loadFiltersFromBackend (be : Backend) (st : St) :
    List FilterMetadata → St × List Event × Option (List Nat)
  | [] => (st, [], some [])
  | m :: ms =>
    let r1 := loadFilterRules be true st m
    let r2 := loadFiltersFromBackend be r1.1 ms
    (r2.1, r1.2.1 ++ r2.2.1,
      match r1.2.2, r2.2.2 with
      | true, some ids => some (m.filterId :: ids)
      | _, _ => none)

/-- `updateCustomFilters(customFilterIds, callback)`: each custom filter is
updated independently through the custom-filter store (state effects live in
that external module); a filter-add-remove event is published for every
attempted filter, and the callback receives exactly the successes. -/
def updateCustomFilters (be : Backend) (st : St) : List Nat → St × List Event × List Nat
  | [] => (st, [], [])
  | i :: ids =>
    let r := updateCustomFilters be st ids
    (r.1, Event.filterAddRemove i :: r.2.1,
      if be.customUpdate i then i :: r.2.2 else r.2.2)

/-- The version filter of `onLoadFilterMetadataList`: a metadata record is
passed to the rules download stage exactly when its filter is in the cache,
its version is present, and that version is strictly greater than the
locally cached version. -/
def selectMetadataToUpdate (st : St) (ml : List FilterMetadata) : List FilterMetadata :=
  ml.filter (fun m =>
    match getFilter st m.filterId, m.version with
    | some f, some v => isGreaterVersion v f.version
    | _, _ => false)

/-- The failure payload of the update popup notification. -/
def failPayload (force : Bool) (now : Int) : PopupPayload :=
  { success := false, updatedFilters := none, forceUpdate := force,
    filtersUpdateLastCheck := now }

/-- The success payload of the update popup notification. -/
def successPayload (ids : List Nat) (force : Bool) (now : Int) : PopupPayload :=
  { success := true, updatedFilters := some ids, forceUpdate := force,
    filtersUpdateLastCheck := now }

/-- `checkAntiBannerFiltersUpdate(forceUpdate, filters)`: records the check
timestamp durably first, selects candidates, short-circuits to a success
popup on an empty selection, fetches metadata for the built-in candidates
(the fetch is skipped, succeeding with an empty list, when there are none),
filters to strictly newer versions, downloads those rule bodies, updates the
custom candidates, and publishes exactly one popup notification. -/
def checkAntiBannerFiltersUpdate (be : Backend) (st : St) (force : Bool)
    (sub : Option (List Filter)) : St × List Event :=
  let st1 := setFiltersUpdateLastCheck st be.now
  let sel := selectFilterIdsToUpdate be.now st1 force sub
  if sel.1.length + sel.2.length = 0 then
    (st1, [Event.updateFiltersShowPopup (successPayload [] force be.now)])
  else
    match (if sel.1.isEmpty then some [] else be.metadataResponse) with
    | none => (st1, [Event.updateFiltersShowPopup (failPayload force be.now)])
    | some ml =>
      let toUpd := selectMetadataToUpdate st1 ml
      let dl := loadFiltersFromBackend be st1 toUpd
      match dl.2.2 with
      | none => (dl.1, dl.2.1 ++ [Event.updateFiltersShowPopup (failPayload force be.now)])
      | some ids =>
        let found := ids.filterMap (fun i => (getFilter dl.1 i).map (fun f => f.filterId))
        let uc := updateCustomFilters be dl.1 sel.2
        (uc.1, dl.2.1 ++ uc.2.1 ++
          [Event.updateFiltersShowPopup (successPayload (found ++ uc.2.2) force be.now)])

/-- The skip-window test `Date.now() - filter.lastCheckTime <
ENABLED_FILTERS_SKIP_TIMEOUT`; an absent timestamp gives `NaN < _`, which is
false in JavaScript. -/
def recentlyChecked (now : Int) (f : Filter) : Bool :=
  match f.lastCheckTime with
  | some t => now - t < ENABLED_FILTERS_SKIP_TIMEOUT
  | none => false

/-- `checkFilterUpdate(filter)`: returns silently when the filter is not
enabled or was checked within the skip window; otherwise forces a
single-filter update check. -/
def checkFilterUpdate (be : Backend) (st : St) (f : Filter) : St × List Event :=
  if !jsTruthy f.enabled then (st, [])
  else if recentlyChecked be.now f then (st, [])
  else checkAntiBannerFiltersUpdate be st true (some [f])

/-! ## Installation (filters manager, continued) -/

/-- `addAntiBannerFilter(filterId, callback)`: looks the filter up through
`getFilterById`, which throws on an absent identifier.  An installed filter
succeeds immediately; a loaded one is marked installed with an add-remove
event and no network fetch; otherwise the rule download runs with
`forceRemote = false` and on success the filter is marked installed with an
add-remove event.  The boolean in the result is the callback argument. -/
def addAntiBannerFilter (be : Backend) (st : St) (i : Nat) :
    Except Unit (St × List Event × Bool) :=
  match getFilter st i with
  | none => .error ()
  | some f =>
    if jsTruthy f.installed then .ok (st, [], true)
    else if jsTruthy f.loaded then
      .ok (setFilter st { f with installed := some true }, [Event.filterAddRemove i], true)
    else
      let r := loadFilterRules be false st (metaOfFilter f)
      if r.2.2 then
        match getFilter r.1 i with
        | some g =>
          .ok (setFilter r.1 { g with installed := some true },
            r.2.1 ++ [Event.filterAddRemove i], true)
        | none => .error ()
      else .ok (r.1, r.2.1, false)

/-- The sequential loop of `addAndEnableFilters` over the de-duplicated
identifier list: each filter completes its install (and, on success, its
enable) before the next identifier is taken; an install reporting failure
skips only the enable of that filter. -/
def addAndEnableList (cfg : Config) (be : Backend) :
    St → List Nat → Except Unit (St × List Event)
  | st, [] => .ok (st, [])
  | st, i :: rest =>
    match addAntiBannerFilter be st i with
    | .error e => .error e
    | .ok (st1, e1, ok) =>
      match (if ok then enableFilter cfg st1 i else .ok (st1, [])) with
      | .error e => .error e
      | .ok (st2, e2) =>
        match addAndEnableList cfg be st2 rest with
        | .error e => .error e
        | .ok (st3, e3) => .ok (st3, e1 ++ e2 ++ e3)

/-- `addAndEnableFilters(filterIds)`: a no-op on a null or empty list,
otherwise de-duplicates and processes strictly sequentially. -/
def addAndEnableFilters (cfg : Config) (be : Backend) (st : St)
    (ids : Option (List Nat)) : Except Unit (St × List Event) :=
  match ids with
  | none => .ok (st, [])
  | some l =>
    if l.length = 0 then .ok (st, [])
    else addAndEnableList cfg be st (removeDuplicates l)

/-! ## Event counting helpers -/

/-- Recogniser of the popup notification event. -/
def isPopupEvent : Event → Bool
  | .updateFiltersShowPopup _ => true
  | _ => false

/-- Recogniser of the start-download event. -/
def isStartEvent : Event → Bool
  | .startDownloadFilter _ => true
  | _ => false

/-- Number of popup notifications in a trace. -/
def popupCount (evs : List Event) : Nat :=
  evs.countP (fun e => isPopupEvent e)

/-- Number of start-download events in a trace. -/
def startCount (evs : List Event) : Nat :=
  evs.countP (fun e => isStartEvent e)

/-! ## Registry lemmas -/

theorem findFilter_eq_some_id {l : List Filter} {i : Nat} {f : Filter}
    (h : findFilter l i = some f) : f.filterId = i := by
  induction l with
  | nil => simp [findFilter] at h
  | cons a t ih =>
    by_cases ha : a.filterId = i
    · simp [findFilter, ha] at h
      simpa [← h] using ha
    · simp [findFilter, ha] at h
      exact ih h

theorem findGroup_eq_some_id {l : List Group} {i : Nat} {g : Group}
    (h : findGroup l i = some g) : g.groupId = i := by
  induction l with
  | nil => simp [findGroup] at h
  | cons a t ih =>
    by_cases ha : a.groupId = i
    · simp [findGroup, ha] at h
      simpa [← h] using ha
    · simp [findGroup, ha] at h
      exact ih h

theorem findFilter_setFilterList_isSome (l : List Filter) (g : Filter) (i : Nat) :
    (findFilter (setFilterList l g) i).isSome = (findFilter l i).isSome := by
  induction l with
  | nil => rfl
  | cons a t ih =>
    by_cases hag : a.filterId = g.filterId
    · by_cases hgi : g.filterId = i
      · simp [setFilterList, findFilter, hag, hgi, hag.trans hgi]
      · have hai : ¬ a.filterId = i := by rw [hag]; exact hgi
        simp [setFilterList, findFilter, hag, hgi, hai, ih]
    · by_cases hai : a.filterId = i
      · have hig : ¬ i = g.filterId := by rw [← hai]; exact hag
        simp [setFilterList, findFilter, hag, hai, hig]
      · simp [setFilterList, findFilter, hag, hai, ih]

theorem findFilter_setFilterList_ne (l : List Filter) (g : Filter) (i : Nat)
    (hne : ¬ g.filterId = i) :
    findFilter (setFilterList l g) i = findFilter l i := by
  induction l with
  | nil => rfl
  | cons a t ih =>
    by_cases hag : a.filterId = g.filterId
    · have hai : ¬ a.filterId = i := by rw [hag]; exact hne
      simp [setFilterList, findFilter, hag, hne, hai, ih]
    · by_cases hai : a.filterId = i
      · have hig : ¬ i = g.filterId := by rw [← hai]; exact hag
        simp [setFilterList, findFilter, hag, hai, hig]
      · simp [setFilterList, findFilter, hag, hai, ih]

theorem findFilter_setFilterList_eq (l : List Filter) (g : Filter) {i : Nat}
    (hsome : (findFilter l i).isSome = true) (hgi : g.filterId = i) :
    findFilter (setFilterList l g) i = some g := by
  induction l with
  | nil => simp [findFilter] at hsome
  | cons a t ih =>
    by_cases hag : a.filterId = g.filterId
    · simp [setFilterList, findFilter, hag, hgi]
    · have hai : ¬ a.filterId = i := by
        intro hc
        exact hag (hc.trans hgi.symm)
      simp [findFilter, hai] at hsome
      simp [setFilterList, findFilter, hag, hai, ih hsome]

theorem findGroup_setGroupList_eq (l : List Group) (g : Group) {i : Nat}
    (hsome : (findGroup l i).isSome = true) (hgi : g.groupId = i) :
    findGroup (setGroupList l g) i = some g := by
  induction l with
  | nil => simp [findGroup] at hsome
  | cons a t ih =>
    by_cases hag : a.groupId = g.groupId
    · simp [setGroupList, findGroup, hag, hgi]
    · have hai : ¬ a.groupId = i := by
        intro hc
        exact hag (hc.trans hgi.symm)
      simp [findGroup, hai] at hsome
      simp [setGroupList, findGroup, hag, hai, ih hsome]

theorem setFilter_persisted (st : St) (f : Filter) :
    (setFilter st f).persisted = st.persisted := rfl

theorem getFilter_setFilter_isSome (st : St) (g : Filter) (i : Nat) :
    (getFilter (setFilter st g) i).isSome = (getFilter st i).isSome :=
  findFilter_setFilterList_isSome st.filters g i

theorem isFilterEnabled_setFilter (st : St) (g : Filter) (i : Nat) :
    isFilterEnabled (setFilter st g) i = isFilterEnabled st i := by
  simp [isFilterEnabled, getFilter_setFilter_isSome, setFilter_persisted]

/-! ## Batch-disable lemmas -/

theorem disableList_enabled_inv (l : List Nat) (st : St) (i : Nat) :
    isFilterEnabled (disableList st l).1 i = isFilterEnabled st i := by
  induction l generalizing st with
  | nil => rfl
  | cons a t ih =>
    by_cases ha : isFilterEnabled st a
    · cases hgf : getFilter st a with
      | none => simp [isFilterEnabled, hgf] at ha
      | some f =>
        simp only [disableList, ha, if_true, hgf]
        rw [ih, isFilterEnabled_setFilter]
    · simp [disableList, ha]

theorem disableList_stop (st : St) (i : Nat) (rest : List Nat)
    (h : isFilterEnabled st i = false) :
    disableList st (i :: rest) = (st, []) := by
  simp [disableList, h]

theorem disableList_append (pre : List Nat) (st : St) (rest : List Nat)
    (h : ∀ p ∈ pre, isFilterEnabled st p = true) :
    disableList st (pre ++ rest) =
      ((disableList (disableList st pre).1 rest).1,
        (disableList st pre).2 ++ (disableList (disableList st pre).1 rest).2) := by
  induction pre generalizing st with
  | nil => simp [disableList]
  | cons a t ih =>
    have ha : isFilterEnabled st a = true := h a (by simp)
    cases hgf : getFilter st a with
    | none => simp [isFilterEnabled, hgf] at ha
    | some f =>
      have ht : ∀ p ∈ t, isFilterEnabled (setFilter st { f with enabled := some false }) p = true := by
        intro p hp
        rw [isFilterEnabled_setFilter]
        exact h p (by simp [hp])
      simp only [List.cons_append, disableList, ha, if_true, hgf, List.append_eq, ih _ ht]

theorem disableList_event_enabled {st : St} {l : List Nat} {j : Nat}
    (h : Event.filterEnableDisable j ∈ (disableList st l).2) :
    j ∈ l ∧ isFilterEnabled st j = true := by
  induction l generalizing st with
  | nil => simp [disableList] at h
  | cons a t ih =>
    by_cases ha : isFilterEnabled st a
    · cases hgf : getFilter st a with
      | none => simp [isFilterEnabled, hgf] at ha
      | some f =>
        simp only [disableList, ha, if_true, hgf, List.mem_cons] at h
        rcases h with h | h
        · have : j = a := by
            have := h
            simp [Event.filterEnableDisable.injEq] at this
            exact this
          subst this
          exact ⟨by simp, ha⟩
        · obtain ⟨hj, he⟩ := ih h
          rw [isFilterEnabled_setFilter] at he
          exact ⟨by simp [hj], he⟩
    · simp [disableList, ha] at h

/-! ## Group toggle lemmas -/

theorem enableGroup_of_enabled {st : St} {gid : Nat} {g : Group}
    (hg : getGroup st gid = some g) (he : jsTruthy g.enabled = true) :
    enableGroup st gid = (st, []) := by
  simp [enableGroup, hg, he]

theorem enableGroup_of_disabled {st : St} {gid : Nat} {g : Group}
    (hg : getGroup st gid = some g) (he : jsTruthy g.enabled = false) :
    enableGroup st gid =
      (setGroup st { g with enabled := some true }, [Event.filterGroupEnableDisable gid]) := by
  simp [enableGroup, hg, he]

theorem disableGroup_of_not_enabled {st : St} {gid : Nat} {g : Group}
    (hg : getGroup st gid = some g) (he : jsTruthy g.enabled = false) :
    disableGroup st gid = (st, []) := by
  simp [disableGroup, hg, he]

theorem getGroup_setGroup {st : St} {gid : Nat} {g g1 : Group}
    (hg : getGroup st gid = some g) (hid : g1.groupId = gid) :
    getGroup (setGroup st g1) gid = some g1 := by
  have : (findGroup st.groups gid).isSome = true := by
    simp [getGroup] at hg
    simp [hg]
  exact findGroup_setGroupList_eq st.groups g1 this hid

theorem enableGroup_no_filter_event (st : St) (gid j : Nat) :
    Event.filterEnableDisable j ∉ (enableGroup st gid).2 := by
  cases hg : getGroup st gid with
  | none => simp [enableGroup, hg]
  | some g =>
    by_cases he : jsTruthy g.enabled
    · simp [enableGroup, hg, he]
    · simp [enableGroup, hg, he]

/-! ## Enable-filter lemmas -/

theorem enableFilter_ok_event_scope {cfg : Config} {st st1 : St} {i j : Nat}
    {evs : List Event}
    (h : enableFilter cfg st i = .ok (st1, evs))
    (hj : Event.filterEnableDisable j ∈ evs) : j = i := by
  cases hgf : getFilter st i with
  | none => simp [enableFilter, hgf] at h
  | some f =>
    simp only [enableFilter, hgf] at h
    have hevs : evs =
        (if !groupHasEnabledStatus (setFilter st { f with enabled := some true }) f.groupId then
            enableGroup (setFilter st { f with enabled := some true }) f.groupId
          else if i = cfg.searchAndSelfPromoFilterId ∨ f.groupId = cfg.customFiltersGroupId then
            enableGroup (setFilter st { f with enabled := some true }) f.groupId
          else (setFilter st { f with enabled := some true }, [])).2 ++
          [Event.filterEnableDisable i] := by
      cases h
      rfl
    rw [hevs] at hj
    rcases List.mem_append.mp hj with hj | hj
    · exfalso
      revert hj
      split
      · exact fun hj => enableGroup_no_filter_event _ _ _ hj
      · split
        · exact fun hj => enableGroup_no_filter_event _ _ _ hj
        · simp
    · simpa using hj

/-! ## Download pipeline lemmas -/

theorem loadFilterRules_persisted (be : Backend) (fr : Bool) (st : St) (m : FilterMetadata) :
    (loadFilterRules be fr st m).1.persisted = st.persisted := by
  cases hgf : getFilter st m.filterId with
  | none => simp [loadFilterRules, hgf]
  | some f =>
    by_cases hr : be.ruleFetch fr f.filterId
    · simp [loadFilterRules, hgf, hr, setFilter_persisted]
    · simp [loadFilterRules, hgf, hr, setFilter_persisted]

theorem loadFilterRules_isSome (be : Backend) (fr : Bool) (st : St) (m : FilterMetadata)
    (i : Nat) :
    (getFilter (loadFilterRules be fr st m).1 i).isSome = (getFilter st i).isSome := by
  cases hgf : getFilter st m.filterId with
  | none => simp [loadFilterRules, hgf]
  | some f =>
    by_cases hr : be.ruleFetch fr f.filterId
    · simp [loadFilterRules, hgf, hr, getFilter_setFilter_isSome]
    · simp [loadFilterRules, hgf, hr, getFilter_setFilter_isSome]

theorem loadFilterRules_outcome (be : Backend) (fr : Bool) (st : St) (m : FilterMetadata) :
    (loadFilterRules be fr st m).2.2 =
      ((getFilter st m.filterId).isSome && be.ruleFetch fr m.filterId) := by
  cases hgf : getFilter st m.filterId with
  | none => simp [loadFilterRules, hgf]
  | some f =>
    have hid : f.filterId = m.filterId := findFilter_eq_some_id hgf
    by_cases hr : be.ruleFetch fr f.filterId
    · have hr2 : be.ruleFetch fr m.filterId = true := by rw [← hid]; exact hr
      simp [loadFilterRules, hgf, hr, hr2]
    · have hr2 : be.ruleFetch fr m.filterId = false := by
        rw [← hid]
        simpa using hr
      simp [loadFilterRules, hgf, hr, hr2]

theorem loadFilterRules_events (be : Backend) (fr : Bool) (st : St) (m : FilterMetadata)
    {e : Event} (he : e ∈ (loadFilterRules be fr st m).2.1) :
    isPopupEvent e = false ∧ (∀ j, e ≠ Event.filterEnableDisable j) := by
  cases hgf : getFilter st m.filterId with
  | none => simp [loadFilterRules, hgf] at he
  | some f =>
    by_cases hr : be.ruleFetch fr f.filterId
    · simp [loadFilterRules, hgf, hr] at he
      rcases he with he | he | he <;> subst he <;> simp [isPopupEvent]
    · simp [loadFilterRules, hgf, hr] at he
      rcases he with he | he <;> subst he <;> simp [isPopupEvent]

theorem loadFilterRules_startCount (be : Backend) (fr : Bool) (st : St) (m : FilterMetadata)
    (hp : (getFilter st m.filterId).isSome = true) :
    startCount (loadFilterRules be fr st m).2.1 = 1 := by
  cases hgf : getFilter st m.filterId with
  | none => rw [hgf] at hp; simp at hp
  | some f =>
    by_cases hr : be.ruleFetch fr f.filterId
    · simp [loadFilterRules, hgf, hr, startCount, isStartEvent]
    · simp [loadFilterRules, hgf, hr, startCount, isStartEvent]

theorem loadFiltersFromBackend_persisted (be : Backend) (st : St) (ms : List FilterMetadata) :
    (loadFiltersFromBackend be st ms).1.persisted = st.persisted := by
  induction ms generalizing st with
  | nil => rfl
  | cons m t ih =>
    simp only [loadFiltersFromBackend]
    rw [ih, loadFilterRules_persisted]

theorem loadFiltersFromBackend_isSome (be : Backend) (st : St) (ms : List FilterMetadata)
    (i : Nat) :
    (getFilter (loadFiltersFromBackend be st ms).1 i).isSome = (getFilter st i).isSome := by
  induction ms generalizing st with
  | nil => rfl
  | cons m t ih =>
    simp only [loadFiltersFromBackend]
    rw [ih, loadFilterRules_isSome]

theorem loadFiltersFromBackend_events (be : Backend) (st : St) (ms : List FilterMetadata)
    {e : Event} (he : e ∈ (loadFiltersFromBackend be st ms).2.1) :
    isPopupEvent e = false ∧ (∀ j, e ≠ Event.filterEnableDisable j) := by
  induction ms generalizing st with
  | nil => simp [loadFiltersFromBackend] at he
  | cons m t ih =>
    simp only [loadFiltersFromBackend, List.mem_append] at he
    rcases he with he | he
    · exact loadFilterRules_events be true st m he
    · exact ih _ he

theorem loadFiltersFromBackend_popupCount (be : Backend) (st : St)
    (ms : List FilterMetadata) :
    popupCount (loadFiltersFromBackend be st ms).2.1 = 0 := by
  rw [popupCount, List.countP_eq_zero]
  intro e he
  simpa using (loadFiltersFromBackend_events be st ms he).1

theorem loadFiltersFromBackend_startCount (be : Backend) (st : St)
    (ms : List FilterMetadata)
    (hp : ∀ m ∈ ms, (getFilter st m.filterId).isSome = true) :
    startCount (loadFiltersFromBackend be st ms).2.1 = ms.length := by
  induction ms generalizing st with
  | nil => rfl
  | cons m t ih =>
    have h1 : startCount (loadFilterRules be true st m).2.1 = 1 :=
      loadFilterRules_startCount be true st m (hp m (by simp))
    have h2 : ∀ m1 ∈ t, (getFilter (loadFilterRules be true st m).1 m1.filterId).isSome = true := by
      intro m1 hm1
      rw [loadFilterRules_isSome]
      exact hp m1 (by simp [hm1])
    have h3 := ih _ h2
    simp only [loadFiltersFromBackend, startCount, List.countP_append, List.length_cons]
    rw [startCount] at h1 h3
    rw [h1, h3]
    omega

theorem loadFiltersFromBackend_result (be : Backend) (st : St) (ms : List FilterMetadata)
    (hp : ∀ m ∈ ms, (getFilter st m.filterId).isSome = true) :
    (loadFiltersFromBackend be st ms).2.2 =
      (if ms.all (fun m => be.ruleFetch true m.filterId) then
        some (ms.map (fun m => m.filterId)) else none) := by
  induction ms generalizing st with
  | nil => rfl
  | cons m t ih =>
    have h2 : ∀ m1 ∈ t, (getFilter (loadFilterRules be true st m).1 m1.filterId).isSome = true := by
      intro m1 hm1
      rw [loadFilterRules_isSome]
      exact hp m1 (by simp [hm1])
    have hout : (loadFilterRules be true st m).2.2 = be.ruleFetch true m.filterId := by
      rw [loadFilterRules_outcome, hp m (by simp)]
      simp
    simp only [loadFiltersFromBackend]
    rw [ih _ h2, hout]
    by_cases hm : be.ruleFetch true m.filterId
    · by_cases ht : t.all (fun m => be.ruleFetch true m.filterId)
      · simp [hm, ht]
      · simp [hm, ht]
    · simp [hm]

/-! ## Custom-filter update lemmas -/

theorem updateCustomFilters_state (be : Backend) (st : St) (ids : List Nat) :
    (updateCustomFilters be st ids).1 = st := by
  induction ids with
  | nil => rfl
  | cons i t ih => simp only [updateCustomFilters]; exact ih

theorem updateCustomFilters_events (be : Backend) (st : St) (ids : List Nat) :
    (updateCustomFilters be st ids).2.1 = ids.map Event.filterAddRemove := by
  induction ids with
  | nil => rfl
  | cons i t ih => simp only [updateCustomFilters, List.map_cons]; rw [ih]

theorem updateCustomFilters_result (be : Backend) (st : St) (ids : List Nat) :
    (updateCustomFilters be st ids).2.2 = ids.filter (fun i => be.customUpdate i) := by
  induction ids with
  | nil => rfl
  | cons i t ih =>
    simp only [updateCustomFilters, List.filter_cons]
    by_cases hc : be.customUpdate i
    · simp [hc, ih]
    · simp [hc, ih]

theorem updateCustomFilters_popupCount (be : Backend) (st : St) (ids : List Nat) :
    popupCount (updateCustomFilters be st ids).2.1 = 0 := by
  rw [updateCustomFilters_events, popupCount, List.countP_eq_zero]
  intro e he
  rcases List.mem_map.mp he with ⟨i, _, rfl⟩
  simp [isPopupEvent]

/-! ## Check-update contract lemmas -/

theorem selectMetadataToUpdate_isSome (st : St) (ml : List FilterMetadata) :
    ∀ m ∈ selectMetadataToUpdate st ml, (getFilter st m.filterId).isSome = true := by
  intro m hm
  rw [selectMetadataToUpdate, List.mem_filter] at hm
  obtain ⟨_, hpred⟩ := hm
  cases hgf : getFilter st m.filterId with
  | none => rw [hgf] at hpred; cases hv : m.version <;> rw [hv] at hpred <;> simp at hpred
  | some f => simp

theorem selectMetadataToUpdate_mem (st : St) (ml : List FilterMetadata)
    (m : FilterMetadata) :
    m ∈ selectMetadataToUpdate st ml ↔
      m ∈ ml ∧ ∃ f v, getFilter st m.filterId = some f ∧ m.version = some v ∧
        isGreaterVersion v f.version = true := by
  rw [selectMetadataToUpdate, List.mem_filter]
  constructor
  · rintro ⟨hml, hpred⟩
    refine ⟨hml, ?_⟩
    cases hgf : getFilter st m.filterId with
    | none => rw [hgf] at hpred; cases hv : m.version <;> rw [hv] at hpred <;> simp at hpred
    | some f =>
      cases hv : m.version with
      | none => rw [hgf, hv] at hpred; simp at hpred
      | some v =>
        rw [hgf, hv] at hpred
        exact ⟨f, v, rfl, rfl, hpred⟩
  · rintro ⟨hml, f, v, hgf, hv, hgt⟩
    exact ⟨hml, by rw [hgf, hv]; exact hgt⟩

theorem checkUpdate_lastCheck (be : Backend) (st : St) (force : Bool)
    (sub : Option (List Filter)) :
    (checkAntiBannerFiltersUpdate be st force sub).1.persisted.filtersUpdateLastCheck =
      some be.now := by
  rw [checkAntiBannerFiltersUpdate]
  set st1 := setFiltersUpdateLastCheck st be.now with hst1
  have hbase : st1.persisted.filtersUpdateLastCheck = some be.now := rfl
  split
  · exact hbase
  · split
    · exact hbase
    · dsimp only
      split
      · rw [loadFiltersFromBackend_persisted]
        exact hbase
      · rw [updateCustomFilters_state, loadFiltersFromBackend_persisted]
        exact hbase

theorem checkUpdate_popupCount (be : Backend) (st : St) (force : Bool)
    (sub : Option (List Filter)) :
    popupCount (checkAntiBannerFiltersUpdate be st force sub).2 = 1 := by
  rw [checkAntiBannerFiltersUpdate]
  split
  · simp [popupCount, isPopupEvent]
  · split
    · simp [popupCount, isPopupEvent]
    · rename_i x ml hml
      dsimp only
      split
      · simp only [popupCount, List.countP_append]
        have h0 := loadFiltersFromBackend_popupCount be
          (setFiltersUpdateLastCheck st be.now)
          (selectMetadataToUpdate (setFiltersUpdateLastCheck st be.now) ml)
        rw [popupCount] at h0
        rw [h0]
        simp [isPopupEvent]
      · simp only [popupCount, List.countP_append]
        have h0 := loadFiltersFromBackend_popupCount be
          (setFiltersUpdateLastCheck st be.now)
          (selectMetadataToUpdate (setFiltersUpdateLastCheck st be.now) ml)
        have h1 := updateCustomFilters_popupCount be
          (loadFiltersFromBackend be (setFiltersUpdateLastCheck st be.now)
            (selectMetadataToUpdate (setFiltersUpdateLastCheck st be.now) ml)).1
          (selectFilterIdsToUpdate be.now (setFiltersUpdateLastCheck st be.now) force sub).2
        rw [popupCount] at h0 h1
        rw [h0, h1]
        simp [isPopupEvent]

theorem checkUpdate_metadata_fail (be : Backend) (st : St) (force : Bool)
    (sub : Option (List Filter))
    (hne : (selectFilterIdsToUpdate be.now (setFiltersUpdateLastCheck st be.now) force sub).1 ≠ [])
    (hmr : be.metadataResponse = none) :
    checkAntiBannerFiltersUpdate be st force sub =
      (setFiltersUpdateLastCheck st be.now,
        [Event.updateFiltersShowPopup (failPayload force be.now)]) := by
  rw [checkAntiBannerFiltersUpdate]
  set sel := selectFilterIdsToUpdate be.now (setFiltersUpdateLastCheck st be.now) force sub
    with hsel
  have hlen : ¬ (sel.1.length + sel.2.length = 0) := by
    intro h
    exact hne (List.length_eq_zero.mp (by omega))
  rw [if_neg hlen]
  have hempty : ¬ (sel.1.isEmpty = true) := fun hc => hne (List.isEmpty_iff.mp hc)
  rw [if_neg hempty, hmr]

theorem checkUpdate_rules_fail (be : Backend) (st : St) (force : Bool)
    (sub : Option (List Filter)) (ml : List FilterMetadata)
    (hne : (selectFilterIdsToUpdate be.now (setFiltersUpdateLastCheck st be.now) force sub).1 ≠ [])
    (hmr : be.metadataResponse = some ml)
    (hfail : ∃ m ∈ selectMetadataToUpdate (setFiltersUpdateLastCheck st be.now) ml,
      be.ruleFetch true m.filterId = false) :
    Event.updateFiltersShowPopup (failPayload force be.now) ∈
      (checkAntiBannerFiltersUpdate be st force sub).2 := by
  rw [checkAntiBannerFiltersUpdate]
  set st1 := setFiltersUpdateLastCheck st be.now with hst1
  set sel := selectFilterIdsToUpdate be.now st1 force sub with hsel
  have hlen : ¬ (sel.1.length + sel.2.length = 0) := by
    intro h
    exact hne (List.length_eq_zero.mp (by omega))
  rw [if_neg hlen]
  have hempty : ¬ (sel.1.isEmpty = true) := fun hc => hne (List.isEmpty_iff.mp hc)
  rw [if_neg hempty, hmr]
  dsimp only
  have hres : (loadFiltersFromBackend be st1 (selectMetadataToUpdate st1 ml)).2.2 = none := by
    rw [loadFiltersFromBackend_result be st1 _ (selectMetadataToUpdate_isSome st1 ml)]
    obtain ⟨m, hm, hf⟩ := hfail
    have hnall : ¬ ((selectMetadataToUpdate st1 ml).all
        (fun m => be.ruleFetch true m.filterId) = true) := by
      intro hall
      rw [List.all_eq_true] at hall
      have := hall m hm
      rw [hf] at this
      exact Bool.false_ne_true this
    rw [if_neg hnall]
  rw [hres]
  exact List.mem_append_right _ (by simp)

/-! ## Install-loop lemmas -/

theorem addAntiBannerFilter_no_enable_event {be : Backend} {st : St} {i : Nat}
    {st1 : St} {evs : List Event} {b : Bool}
    (h : addAntiBannerFilter be st i = .ok (st1, evs, b)) (j : Nat) :
    Event.filterEnableDisable j ∉ evs := by
  cases hgf : getFilter st i with
  | none => simp [addAntiBannerFilter, hgf] at h
  | some f =>
    by_cases hins : jsTruthy f.installed
    · simp only [addAntiBannerFilter, hgf, hins, if_true, Except.ok.injEq, Prod.mk.injEq] at h
      rw [← h.2.1]
      simp
    · by_cases hld : jsTruthy f.loaded
      · simp only [addAntiBannerFilter, hgf, hins, hld, Bool.false_eq_true, if_false, if_true,
          Except.ok.injEq, Prod.mk.injEq] at h
        rw [← h.2.1]
        simp
      · by_cases hok : (loadFilterRules be false st (metaOfFilter f)).2.2 = true
        · cases hg1 : getFilter (loadFilterRules be false st (metaOfFilter f)).1 i with
          | none =>
            simp only [addAntiBannerFilter, hgf, hins, hld, hok, hg1, Bool.false_eq_true,
              if_false, if_true] at h
            simp at h
          | some g =>
            simp only [addAntiBannerFilter, hgf, hins, hld, hok, hg1, Bool.false_eq_true,
              if_false, if_true, Except.ok.injEq, Prod.mk.injEq] at h
            rw [← h.2.1]
            intro hmem
            rcases List.mem_append.mp hmem with hmem | hmem
            · exact ((loadFilterRules_events be false st (metaOfFilter f) hmem).2 j) rfl
            · simp at hmem
        · rw [Bool.not_eq_true] at hok
          simp only [addAntiBannerFilter, hgf, hins, hld, hok, Bool.false_eq_true, if_false,
            Except.ok.injEq, Prod.mk.injEq] at h
          rw [← h.2.1]
          intro hmem
          exact ((loadFilterRules_events be false st (metaOfFilter f) hmem).2 j) rfl

theorem addAndEnableList_event_scope {cfg : Config} {be : Backend} :
    ∀ {l : List Nat} {st st1 : St} {evs : List Event},
    addAndEnableList cfg be st l = .ok (st1, evs) →
    ∀ j, Event.filterEnableDisable j ∈ evs → j ∈ l := by
  intro l
  induction l with
  | nil =>
    intro st st1 evs h j hj
    rw [addAndEnableList] at h
    cases h
    simp at hj
  | cons i t ih =>
    intro st st1 evs h j hj
    rw [addAndEnableList] at h
    cases ha : addAntiBannerFilter be st i with
    | error e => rw [ha] at h; cases h
    | ok v =>
      obtain ⟨stA, eA, okA⟩ := v
      rw [ha] at h
      dsimp only at h
      cases he : (if okA then enableFilter cfg stA i else .ok (stA, [])) with
      | error e => rw [he] at h; cases h
      | ok w =>
        obtain ⟨stB, eB⟩ := w
        rw [he] at h
        dsimp only at h
        cases hr : addAndEnableList cfg be stB t with
        | error e => rw [hr] at h; cases h
        | ok u =>
          obtain ⟨stC, eC⟩ := u
          rw [hr] at h
          dsimp only at h
          cases h
          rcases List.mem_append.mp hj with hj1 | hj4
          · rcases List.mem_append.mp hj1 with hj2 | hj3
            · exact absurd hj2 (addAntiBannerFilter_no_enable_event ha j)
            · by_cases hok : okA = true
              · rw [if_pos hok] at he
                have := enableFilter_ok_event_scope he hj3
                simp [this]
              · rw [if_neg hok] at he
                cases he
                simp at hj3
          · exact List.mem_cons_of_mem i (ih hr j hj4)

/-! ## Concrete fixtures for witnesses and counterexamples -/

/-- A filter object with every optional field undefined. -/
def mkFilter (i gid : Nat) : Filter :=
  ⟨i, gid, none, none, none, none, none, none, none, none, none, false⟩

/-- A persisted store with nothing recorded. -/
def emptyPersisted : Persisted := ⟨[], [], [], none⟩

/-! ## Claim C6 -/

/-- Claim C6: for every id list passed to disableFilters, ids are processed
in order after de-duplication, and on the first id encountered whose filter
is not currently enabled, processing of the entire remaining batch stops: no
later id in the list is disabled and no event is emitted for it, even if
that later filter is enabled.  Formally: when the de-duplicated list splits
as pre ++ i :: post with every id of pre enabled and i not enabled, the call
equals processing pre alone, and every enable-disable event in the trace
belongs to pre. -/
theorem disableFilters_short_circuit (st : St) (ids pre post : List Nat) (i : Nat)
    (hdedup : removeDuplicates ids = pre ++ i :: post)
    (hpre : ∀ p ∈ pre, isFilterEnabled st p = true)
    (hi : isFilterEnabled st i = false) :
    disableFilters st ids = disableList st pre
    ∧ ∀ j, Event.filterEnableDisable j ∈ (disableFilters st ids).2 → j ∈ pre := by
  have hmain : disableFilters st ids = disableList st pre := by
    rw [disableFilters, hdedup, disableList_append pre st (i :: post) hpre]
    have hstop : isFilterEnabled (disableList st pre).1 i = false := by
      rw [disableList_enabled_inv]
      exact hi
    rw [disableList_stop _ _ _ hstop]
    simp
  refine ⟨hmain, ?_⟩
  intro j hj
  rw [hmain] at hj
  exact (disableList_event_enabled hj).1

/-- Fixture for the C6 witness: filters 1, 2, 3 in the registry, with the
persisted state enabling 1 and 3 but not 2. -/
def c6st : St :=
  { filters := [mkFilter 1 1, mkFilter 2 1, mkFilter 3 1]
    groups := []
    customStore := []
    persisted := ⟨[], [(1, ⟨true, true, true⟩), (3, ⟨true, true, true⟩)], [], none⟩
    updatePeriodHours := 1 }

/-- Witness for C6: disabling the batch 1, 2, 3 where 2 is not enabled stops
after 1; filter 3 is never disabled although it is enabled. -/
theorem disableFilters_short_circuit_witness :
    removeDuplicates [1, 2, 3] = [1] ++ 2 :: [3]
    ∧ (∀ p ∈ [1], isFilterEnabled c6st p = true)
    ∧ isFilterEnabled c6st 2 = false
    ∧ (disableFilters c6st [1, 2, 3] = disableList c6st [1]
       ∧ ∀ j, Event.filterEnableDisable j ∈ (disableFilters c6st [1, 2, 3]).2 → j ∈ [1]) :=
  ⟨by decide, by decide, by decide,
    disableFilters_short_circuit c6st [1, 2, 3] [1] [3] 2 (by decide) (by decide) (by decide)⟩

/-! ## Claim C1 -/

/-- Fixture for the C1 counterexample: a registry with no filters at all. -/
def c1st : St :=
  { filters := [], groups := [], customStore := [], persisted := emptyPersisted
    updatePeriodHours := 1 }

/-- Counterexample to claim C1 as stated: the claim requires that
enableFilter on an id absent from the registry does not throw, but the
source dereferences the failed cache lookup (filter.enabled = true on
undefined raises a TypeError), modelled as Except.error: on the empty
registry, enableFilter 7 throws. -/
theorem enableFilter_absent_throws :
    enableFilter ⟨10, 0⟩ c1st 7 = Except.error () := rfl

/-- Claim C1 (amended): for every filter id not present in the registry
cache, disableFilters is a silent no-op on that id — it emits no event for
it and does not throw — while enableFilter on that id throws (and emits no
event). -/
theorem absent_filter_operations (cfg : Config) (st : St) (i : Nat) (ids : List Nat)
    (h : getFilter st i = none) :
    enableFilter cfg st i = .error ()
    ∧ disableFilters st [i] = (st, [])
    ∧ Event.filterEnableDisable i ∉ (disableFilters st ids).2 := by
  have hne : isFilterEnabled st i = false := by simp [isFilterEnabled, h]
  refine ⟨by simp [enableFilter, h], ?_, ?_⟩
  · rw [disableFilters]
    have hd : removeDuplicates [i] = [i] := rfl
    rw [hd, disableList_stop st i [] hne]
  · rw [disableFilters]
    intro hj
    have hev := (disableList_event_enabled hj).2
    rw [hne] at hev
    cases hev

/-- Witness for the amended C1 at id 7 on the empty registry. -/
theorem absent_filter_operations_witness :
    enableFilter ⟨10, 0⟩ c1st 7 = .error ()
    ∧ disableFilters c1st [7] = (c1st, [])
    ∧ Event.filterEnableDisable 7 ∉ (disableFilters c1st [7, 7, 9]).2 :=
  absent_filter_operations ⟨10, 0⟩ c1st 7 [7, 7, 9] (by decide)

/-! ## Claim C9 -/

/-- Fixture for the C9 counterexample: group 1 is already enabled. -/
def c9st : St :=
  { filters := [], groups := [⟨1, some true⟩], customStore := []
    persisted := emptyPersisted, updatePeriodHours := 1 }

/-- Counterexample to claim C9 as stated: the claim demands that for every
group id two successive enableGroup calls emit exactly one enable event; on
a group that is already enabled the two calls emit zero events. -/
theorem enableGroup_twice_zero_events :
    (enableGroup c9st 1).2 ++ (enableGroup (enableGroup c9st 1).1 1).2 = [] := rfl

/-- Claim C9 (amended): enableGroup and disableGroup are idempotent.  For a
known group that is not already enabled, enabling emits exactly one group
enable-disable event, sets the flag, and a second call is a no-op emitting
nothing; a call on an already-enabled group emits nothing (so two calls on
an already-enabled group emit zero events, not one); disabling is
symmetric; both operations are silent no-ops on an unknown group id. -/
theorem group_toggle_idempotent (st : St) (gid : Nat) :
    (getGroup st gid = none → enableGroup st gid = (st, []) ∧ disableGroup st gid = (st, []))
    ∧ (∀ g, getGroup st gid = some g → jsTruthy g.enabled = false →
        (enableGroup st gid).2 = [Event.filterGroupEnableDisable gid]
        ∧ getGroup (enableGroup st gid).1 gid = some { g with enabled := some true }
        ∧ enableGroup (enableGroup st gid).1 gid = ((enableGroup st gid).1, []))
    ∧ (∀ g, getGroup st gid = some g → jsTruthy g.enabled = true →
        enableGroup st gid = (st, []))
    ∧ (∀ g, getGroup st gid = some g → jsTruthy g.enabled = true →
        (disableGroup st gid).2 = [Event.filterGroupEnableDisable gid]
        ∧ getGroup (disableGroup st gid).1 gid = some { g with enabled := some false }
        ∧ disableGroup (disableGroup st gid).1 gid = ((disableGroup st gid).1, []))
    ∧ (∀ g, getGroup st gid = some g → jsTruthy g.enabled = false →
        disableGroup st gid = (st, [])) := by
  refine ⟨?_, ?_, ?_, ?_, ?_⟩
  · intro h
    constructor
    · simp [enableGroup, h]
    · simp [disableGroup, h]
  · intro g hg he
    have hgid : g.groupId = gid := findGroup_eq_some_id hg
    have hid : Group.groupId { g with enabled := some true } = gid := hgid
    have h1 := enableGroup_of_disabled hg he
    have hafter : getGroup (enableGroup st gid).1 gid = some { g with enabled := some true } := by
      rw [h1]
      exact getGroup_setGroup hg hid
    refine ⟨by rw [h1], hafter, ?_⟩
    exact enableGroup_of_enabled hafter (by simp [jsTruthy])
  · intro g hg he
    exact enableGroup_of_enabled hg he
  · intro g hg he
    have hgid : g.groupId = gid := findGroup_eq_some_id hg
    have hid : Group.groupId { g with enabled := some false } = gid := hgid
    have h1 : disableGroup st gid =
        (setGroup st { g with enabled := some false }, [Event.filterGroupEnableDisable gid]) := by
      simp [disableGroup, hg, he]
    have hafter : getGroup (disableGroup st gid).1 gid = some { g with enabled := some false } := by
      rw [h1]
      exact getGroup_setGroup hg hid
    refine ⟨by rw [h1], hafter, ?_⟩
    exact disableGroup_of_not_enabled hafter (by rfl)
  · intro g hg he
    simp [disableGroup, hg, he]

/-- Fixture for the C9 witness: group 4 never toggled, group 5 enabled. -/
def c9wst : St :=
  { filters := [], groups := [⟨4, none⟩, ⟨5, some true⟩], customStore := []
    persisted := emptyPersisted, updatePeriodHours := 1 }

/-- Witness for the amended C9 on group 4 of the fixture state. -/
theorem group_toggle_idempotent_witness :
    (getGroup c9wst 4 = none → enableGroup c9wst 4 = (c9wst, []) ∧ disableGroup c9wst 4 = (c9wst, []))
    ∧ (∀ g, getGroup c9wst 4 = some g → jsTruthy g.enabled = false →
        (enableGroup c9wst 4).2 = [Event.filterGroupEnableDisable 4]
        ∧ getGroup (enableGroup c9wst 4).1 4 = some { g with enabled := some true }
        ∧ enableGroup (enableGroup c9wst 4).1 4 = ((enableGroup c9wst 4).1, []))
    ∧ (∀ g, getGroup c9wst 4 = some g → jsTruthy g.enabled = true →
        enableGroup c9wst 4 = (c9wst, []))
    ∧ (∀ g, getGroup c9wst 4 = some g → jsTruthy g.enabled = true →
        (disableGroup c9wst 4).2 = [Event.filterGroupEnableDisable 4]
        ∧ getGroup (disableGroup c9wst 4).1 4 = some { g with enabled := some false }
        ∧ disableGroup (disableGroup c9wst 4).1 4 = ((disableGroup c9wst 4).1, []))
    ∧ (∀ g, getGroup c9wst 4 = some g → jsTruthy g.enabled = false →
        disableGroup c9wst 4 = (c9wst, [])) :=
  group_toggle_idempotent c9wst 4

/-! ## Claim C8 -/

/-- Fixture for the C8 counterexample: one group in the registry with a
persisted enabled state, so the merged collection is nonempty. -/
def c8st : St :=
  { filters := [mkFilter 1 1]
    groups := [⟨1, none⟩]
    customStore := []
    persisted := ⟨[], [], [(1, ⟨true⟩)], none⟩
    updatePeriodHours := 1 }

/-- Counterexample to claim C8 as stated: the claim requires getGroups to
return the merged group collection, but the source function has no return
statement, so the call returns undefined (modelled none) although the
merged registry collection is nonempty. -/
theorem getGroups_returns_undefined :
    (getGroups c8st).2 = none ∧ (getGroups c8st).1.groups ≠ [] := ⟨rfl, by decide⟩

/-- Claim C8 (amended): getFilters merges the registry filter objects with
the persisted version and state info and returns the merged collection (the
same objects the registry then holds); getGroups performs the analogous
merge on the registry group objects in place but returns undefined rather
than the merged collection; neither operation writes any key to the
persisted state store. -/
theorem getFilters_getGroups_projection (st : St) :
    (getFilters st).1.persisted = st.persisted
    ∧ (getGroups st).1.persisted = st.persisted
    ∧ (getFilters st).2 = (getFilters st).1.filters
    ∧ (∀ f ∈ st.filters, mergeFilter st.persisted f ∈ (getFilters st).2)
    ∧ (∀ f vi si, f ∈ st.filters →
        lookupId st.persisted.filtersVersionInfo f.filterId = some vi →
        lookupId st.persisted.filtersStateInfo f.filterId = some si →
        { f with
            version := some vi.version
            lastCheckTime := some vi.lastCheckTime
            lastUpdateTime := some vi.lastUpdateTime
            enabled := some si.enabled
            installed := some si.installed
            loaded := some si.loaded } ∈ (getFilters st).2)
    ∧ (getGroups st).2 = none
    ∧ (∀ g ∈ st.groups, mergeGroup st.persisted g ∈ (getGroups st).1.groups) := by
  refine ⟨rfl, rfl, rfl, ?_, ?_, rfl, ?_⟩
  · intro f hf
    exact List.mem_map_of_mem _ hf
  · intro f vi si hf hvi hsi
    have hmf : mergeFilter st.persisted f =
        { f with
            version := some vi.version
            lastCheckTime := some vi.lastCheckTime
            lastUpdateTime := some vi.lastUpdateTime
            enabled := some si.enabled
            installed := some si.installed
            loaded := some si.loaded } := by
      rw [mergeFilter]
      rw [hvi]
      dsimp only
      rw [hsi]
    rw [← hmf]
    exact List.mem_map_of_mem _ hf
  · intro g hg
    exact List.mem_map_of_mem _ hg

/-- Fixture for the C8 witness: a filter with both persisted records. -/
def c8wst : St :=
  { filters := [mkFilter 2 1]
    groups := [⟨1, none⟩]
    customStore := []
    persisted := ⟨[(2, ⟨[1, 2], 50, 40⟩)], [(2, ⟨true, true, false⟩)], [(1, ⟨false⟩)], none⟩
    updatePeriodHours := 1 }

/-- Witness for the amended C8 on the fixture state. -/
theorem getFilters_getGroups_projection_witness :
    (getFilters c8wst).1.persisted = c8wst.persisted
    ∧ (getGroups c8wst).1.persisted = c8wst.persisted
    ∧ (getFilters c8wst).2 = (getFilters c8wst).1.filters
    ∧ (∀ f ∈ c8wst.filters, mergeFilter c8wst.persisted f ∈ (getFilters c8wst).2)
    ∧ (∀ f vi si, f ∈ c8wst.filters →
        lookupId c8wst.persisted.filtersVersionInfo f.filterId = some vi →
        lookupId c8wst.persisted.filtersStateInfo f.filterId = some si →
        { f with
            version := some vi.version
            lastCheckTime := some vi.lastCheckTime
            lastUpdateTime := some vi.lastUpdateTime
            enabled := some si.enabled
            installed := some si.installed
            loaded := some si.loaded } ∈ (getFilters c8wst).2)
    ∧ (getGroups c8wst).2 = none
    ∧ (∀ g ∈ c8wst.groups, mergeGroup c8wst.persisted g ∈ (getGroups c8wst).1.groups) :=
  getFilters_getGroups_projection c8wst

/-! ## Claim C7 -/

/-- Claim C7: checkFilterUpdate performs no network call and no state change
when the filter is disabled or when its lastCheckTime is within the last
five minutes of the current time (the call returns the state unchanged with
an empty event trace); otherwise it triggers a forced single-filter update
check, checkAntiBannerFiltersUpdate with forceUpdate true and the filter as
the only candidate. -/
theorem checkFilterUpdate_skip_window (be : Backend) (st : St) (f : Filter) :
    (jsTruthy f.enabled = false → checkFilterUpdate be st f = (st, []))
    ∧ (∀ t, f.lastCheckTime = some t → be.now - t < ENABLED_FILTERS_SKIP_TIMEOUT →
        checkFilterUpdate be st f = (st, []))
    ∧ (jsTruthy f.enabled = true →
        (∀ t, f.lastCheckTime = some t → be.now - t ≥ ENABLED_FILTERS_SKIP_TIMEOUT) →
        checkFilterUpdate be st f = checkAntiBannerFiltersUpdate be st true (some [f])) := by
  refine ⟨?_, ?_, ?_⟩
  · intro he
    simp [checkFilterUpdate, he]
  · intro t ht hrec
    by_cases he : jsTruthy f.enabled
    · have hr : recentlyChecked be.now f = true := by
        rw [recentlyChecked, ht]
        simpa using hrec
      simp [checkFilterUpdate, he, hr]
    · simp [checkFilterUpdate, he]
  · intro he hold
    have hr : recentlyChecked be.now f = false := by
      rw [recentlyChecked]
      cases ht : f.lastCheckTime with
      | none => rfl
      | some t =>
        have := hold t ht
        simpa using this
    simp [checkFilterUpdate, he, hr]

/-- Fixture for the C7 witness: an enabled installed filter checked two
minutes before the current clock value 1000000000. -/
def c7f : Filter :=
  { mkFilter 1 1 with
      enabled := some true
      installed := some true
      lastCheckTime := some 999880000 }

/-- Backend fixture for the C7 witness. -/
def c7be : Backend :=
  { now := 1000000000, metadataResponse := some []
    ruleFetch := fun _ _ => true, customUpdate := fun _ => true }

/-- Witness for C7: the two-minutes-ago filter is inside the five-minute
skip window, so the call is a silent no-op. -/
theorem checkFilterUpdate_skip_window_witness :
    c7f.lastCheckTime = some 999880000
    ∧ c7be.now - 999880000 < ENABLED_FILTERS_SKIP_TIMEOUT
    ∧ checkFilterUpdate c7be c1st c7f = (c1st, []) :=
  ⟨rfl, by decide,
    (checkFilterUpdate_skip_window c7be c1st c7f).2.1 999880000 rfl (by decide)⟩

/-! ## Claim C4 -/

/-- Claim C4: updateCustomFilters attempts each custom filter update
independently: a failed update never aborts the batch or the callback (the
call always completes, returning the state unchanged), the callback
receives exactly the list of filters whose update succeeded, in attempt
order, with failures silently omitted, and a filter-add-remove event is
emitted for every attempted filter regardless of its individual outcome. -/
theorem updateCustomFilters_isolation (be : Backend) (st : St) (ids : List Nat) :
    (updateCustomFilters be st ids).2.2 = ids.filter (fun i => be.customUpdate i)
    ∧ (updateCustomFilters be st ids).2.1 = ids.map Event.filterAddRemove
    ∧ (∀ i ∈ ids, Event.filterAddRemove i ∈ (updateCustomFilters be st ids).2.1)
    ∧ (updateCustomFilters be st ids).1 = st := by
  refine ⟨updateCustomFilters_result be st ids, updateCustomFilters_events be st ids, ?_,
    updateCustomFilters_state be st ids⟩
  intro i hi
  rw [updateCustomFilters_events]
  exact List.mem_map_of_mem _ hi

/-- Backend fixture for the C4 witness: the update of filter 30 succeeds
and the update of filter 31 fails. -/
def c4be : Backend :=
  { now := 0, metadataResponse := none, ruleFetch := fun _ _ => true
    customUpdate := fun i => i = 30 }

/-- Witness for C4 on the two-filter batch 30, 31: the result keeps only 30
while an add-remove event fires for both. -/
theorem updateCustomFilters_isolation_witness :
    (updateCustomFilters c4be c1st [30, 31]).2.2 = [30, 31].filter (fun i => c4be.customUpdate i)
    ∧ (updateCustomFilters c4be c1st [30, 31]).2.1 = [30, 31].map Event.filterAddRemove
    ∧ (∀ i ∈ [30, 31], Event.filterAddRemove i ∈ (updateCustomFilters c4be c1st [30, 31]).2.1)
    ∧ (updateCustomFilters c4be c1st [30, 31]).1 = c1st :=
  updateCustomFilters_isolation c4be c1st [30, 31]

/-! ## Claim C3 -/

/-- Claim C3: loadFiltersFromBackend starts one independent rule download
per metadata entry (one start-download event per entry), reports success
with the id list only if every individual download succeeds, and on any
individual failure reports the bare failure with no filter-id list,
discarding the ids of downloads that did succeed. -/
theorem loadFiltersFromBackend_all_or_nothing (be : Backend) (st : St)
    (ms : List FilterMetadata)
    (hp : ∀ m ∈ ms, (getFilter st m.filterId).isSome = true) :
    startCount (loadFiltersFromBackend be st ms).2.1 = ms.length
    ∧ ((∀ m ∈ ms, be.ruleFetch true m.filterId = true) →
        (loadFiltersFromBackend be st ms).2.2 = some (ms.map (fun m => m.filterId)))
    ∧ ((∃ m ∈ ms, be.ruleFetch true m.filterId = false) →
        (loadFiltersFromBackend be st ms).2.2 = none) := by
  refine ⟨loadFiltersFromBackend_startCount be st ms hp, ?_, ?_⟩
  · intro hall
    rw [loadFiltersFromBackend_result be st ms hp, if_pos]
    rw [List.all_eq_true]
    exact hall
  · rintro ⟨m, hm, hf⟩
    rw [loadFiltersFromBackend_result be st ms hp, if_neg]
    intro hall
    rw [List.all_eq_true] at hall
    have := hall m hm
    rw [hf] at this
    exact Bool.false_ne_true this

/-- Registry fixture for the C3 witness: filters 11 and 12 present. -/
def c3st : St :=
  { filters := [mkFilter 11 1, mkFilter 12 1], groups := [], customStore := []
    persisted := emptyPersisted, updatePeriodHours := 1 }

/-- Backend fixture for the C3 witness: the download of filter 12 fails. -/
def c3be : Backend :=
  { now := 0, metadataResponse := none, ruleFetch := fun _ i => i = 11
    customUpdate := fun _ => true }

/-- Metadata batch for the C3 witness. -/
def c3ms : List FilterMetadata := [⟨11, some [2], none⟩, ⟨12, some [2], none⟩]

/-- Witness for C3: both downloads start, filter 11 succeeds, filter 12
fails, and the aggregate discards the successful id 11. -/
theorem loadFiltersFromBackend_all_or_nothing_witness :
    (∀ m ∈ c3ms, (getFilter c3st m.filterId).isSome = true)
    ∧ (startCount (loadFiltersFromBackend c3be c3st c3ms).2.1 = c3ms.length
      ∧ ((∀ m ∈ c3ms, c3be.ruleFetch true m.filterId = true) →
          (loadFiltersFromBackend c3be c3st c3ms).2.2 = some (c3ms.map (fun m => m.filterId)))
      ∧ ((∃ m ∈ c3ms, c3be.ruleFetch true m.filterId = false) →
          (loadFiltersFromBackend c3be c3st c3ms).2.2 = none)) :=
  ⟨by decide, loadFiltersFromBackend_all_or_nothing c3be c3st c3ms (by decide)⟩

/-! ## Claim C2 -/

/-- Claim C2: for every invocation of checkAntiBannerFiltersUpdate, the
last-check timestamp is durably recorded for every backend outcome (the
write happens first in the definition, before the backend oracle is
consulted, and survives to the final state even on total failure); exactly
one update-filters-show-popup notification is published per invocation; if
the metadata fetch fails (built-in candidates exist and the response is
absent) or the built-in rules batch fetch fails (some selected metadata
entry's download fails), the published payload is the failure payload
success false, forceUpdate, lastCheckTimestamp, carrying no updated-filters
list; and a metadata record is passed to the rules download stage iff its
filter is cached and its remote version is present and strictly greater
than the locally cached version. -/
theorem checkAntiBannerFiltersUpdate_contract (be : Backend) (st : St) (force : Bool)
    (sub : Option (List Filter)) :
    (checkAntiBannerFiltersUpdate be st force sub).1.persisted.filtersUpdateLastCheck =
      some be.now
    ∧ popupCount (checkAntiBannerFiltersUpdate be st force sub).2 = 1
    ∧ ((selectFilterIdsToUpdate be.now (setFiltersUpdateLastCheck st be.now) force sub).1 ≠ [] →
        be.metadataResponse = none →
        checkAntiBannerFiltersUpdate be st force sub =
          (setFiltersUpdateLastCheck st be.now,
            [Event.updateFiltersShowPopup (failPayload force be.now)]))
    ∧ (∀ ml,
        (selectFilterIdsToUpdate be.now (setFiltersUpdateLastCheck st be.now) force sub).1 ≠ [] →
        be.metadataResponse = some ml →
        (∃ m ∈ selectMetadataToUpdate (setFiltersUpdateLastCheck st be.now) ml,
          be.ruleFetch true m.filterId = false) →
        Event.updateFiltersShowPopup (failPayload force be.now) ∈
          (checkAntiBannerFiltersUpdate be st force sub).2)
    ∧ (∀ ml m, m ∈ selectMetadataToUpdate (setFiltersUpdateLastCheck st be.now) ml ↔
        m ∈ ml ∧ ∃ f v, getFilter (setFiltersUpdateLastCheck st be.now) m.filterId = some f
          ∧ m.version = some v ∧ isGreaterVersion v f.version = true) := by
  refine ⟨checkUpdate_lastCheck be st force sub, checkUpdate_popupCount be st force sub,
    ?_, ?_, ?_⟩
  · intro hne hmr
    exact checkUpdate_metadata_fail be st force sub hne hmr
  · intro ml hne hmr hfail
    exact checkUpdate_rules_fail be st force sub ml hne hmr hfail
  · intro ml m
    exact selectMetadataToUpdate_mem (setFiltersUpdateLastCheck st be.now) ml m

/-- Registry fixture for the C2 witness: filter 21 installed and enabled
with cached version 1.2.0 and a stale last check. -/
def c2st : St :=
  { filters := [{ mkFilter 21 1 with
      enabled := some true
      installed := some true
      version := some [1, 2, 0]
      lastCheckTime := some 0 }]
    groups := []
    customStore := []
    persisted := emptyPersisted
    updatePeriodHours := 1 }

/-- Backend fixture for the C2 witness: the metadata response offers
version 1.3.0 for filter 21 but its rule download fails. -/
def c2be : Backend :=
  { now := 1000000000, metadataResponse := some [⟨21, some [1, 3, 0], some 7⟩]
    ruleFetch := fun _ _ => false, customUpdate := fun _ => true }

/-- Witness for C2 on the fixture: the timestamp is recorded, exactly one
popup fires, and the failing rules batch yields the failure payload. -/
theorem checkAntiBannerFiltersUpdate_contract_witness :
    (checkAntiBannerFiltersUpdate c2be c2st true none).1.persisted.filtersUpdateLastCheck =
      some c2be.now
    ∧ popupCount (checkAntiBannerFiltersUpdate c2be c2st true none).2 = 1
    ∧ ((selectFilterIdsToUpdate c2be.now (setFiltersUpdateLastCheck c2st c2be.now) true none).1 ≠ [] →
        c2be.metadataResponse = none →
        checkAntiBannerFiltersUpdate c2be c2st true none =
          (setFiltersUpdateLastCheck c2st c2be.now,
            [Event.updateFiltersShowPopup (failPayload true c2be.now)]))
    ∧ (∀ ml,
        (selectFilterIdsToUpdate c2be.now (setFiltersUpdateLastCheck c2st c2be.now) true none).1 ≠ [] →
        c2be.metadataResponse = some ml →
        (∃ m ∈ selectMetadataToUpdate (setFiltersUpdateLastCheck c2st c2be.now) ml,
          c2be.ruleFetch true m.filterId = false) →
        Event.updateFiltersShowPopup (failPayload true c2be.now) ∈
          (checkAntiBannerFiltersUpdate c2be c2st true none).2)
    ∧ (∀ ml m, m ∈ selectMetadataToUpdate (setFiltersUpdateLastCheck c2st c2be.now) ml ↔
        m ∈ ml ∧ ∃ f v, getFilter (setFiltersUpdateLastCheck c2st c2be.now) m.filterId = some f
          ∧ m.version = some v ∧ isGreaterVersion v f.version = true) :=
  checkAntiBannerFiltersUpdate_contract c2be c2st true none

/-! ## Claim C5 -/

theorem needUpdate_iff (now periodMs : Int) (force : Bool) (f : Filter) :
    needUpdate now periodMs force f = true ↔
      (force = true ∨ f.lastCheckTime = none ∨ f.lastCheckTime = some 0
        ∨ ∃ t, f.lastCheckTime = some t ∧ now - t ≥ periodMs) := by
  rw [needUpdate]
  cases hl : f.lastCheckTime with
  | none => simp [jsFalsyTime]
  | some t =>
    simp [jsFalsyTime]
    tauto

/-- Claim C5: selectFilterIdsToUpdate includes a non-custom filter drawn
from the considered collection (the supplied subset, else the registry) in
the built-in id list iff it is installed and enabled and (forceUpdate is
true, or the filter has no lastCheckTime — undefined or zero, the falsy
values — or the elapsed time since lastCheckTime is at least the configured
update period in milliseconds, read from the settings state at call time);
it includes a custom filter from the custom store in the custom id list iff
the filter is enabled and, when the optional subset is supplied, it appears
in that subset (matched by id). -/
theorem mem_builtin_ids (now periodMs : Int) (force : Bool) (fl : List Filter) (i : Nat) :
    (i ∈ (fl.filter (fun f =>
        jsTruthy f.installed && jsTruthy f.enabled && needUpdate now periodMs force f
          && !jsStrTruthy f.customUrl)).map (fun f => f.filterId) ↔
      ∃ f : Filter, f ∈ fl ∧ f.filterId = i
        ∧ jsTruthy f.installed = true ∧ jsTruthy f.enabled = true
        ∧ (force = true ∨ f.lastCheckTime = none ∨ f.lastCheckTime = some 0
           ∨ ∃ t, f.lastCheckTime = some t ∧ now - t ≥ periodMs)
        ∧ jsStrTruthy f.customUrl = false) := by
  rw [List.mem_map]
  constructor
  · rintro ⟨f, hf, rfl⟩
    rw [List.mem_filter] at hf
    obtain ⟨hmem, hpred⟩ := hf
    simp only [Bool.and_eq_true] at hpred
    obtain ⟨⟨⟨hins, hen⟩, hup⟩, hcust⟩ := hpred
    refine ⟨f, hmem, rfl, hins, hen, (needUpdate_iff now periodMs force f).mp hup, ?_⟩
    simpa using hcust
  · rintro ⟨f, hmem, rfl, hins, hen, hup, hcust⟩
    refine ⟨f, ?_, rfl⟩
    rw [List.mem_filter]
    refine ⟨hmem, ?_⟩
    simp only [Bool.and_eq_true]
    exact ⟨⟨⟨hins, hen⟩, (needUpdate_iff now periodMs force f).mpr hup⟩, by simp [hcust]⟩

theorem mem_custom_ids (cs : List Filter) (sub : Option (List Filter)) (i : Nat) :
    (i ∈ ((cs.filter (fun f =>
          match sub with
          | none => true
          | some l => l.any (fun x => x.filterId = f.filterId))).filter
        (fun f => jsTruthy f.enabled)).map (fun f => f.filterId) ↔
      ∃ f : Filter, f ∈ cs ∧ f.filterId = i ∧ jsTruthy f.enabled = true
        ∧ (∀ l, sub = some l → l.any (fun x => x.filterId = f.filterId) = true)) := by
  rw [List.mem_map]
  constructor
  · rintro ⟨f, hf, rfl⟩
    rw [List.mem_filter] at hf
    obtain ⟨hf1, hen⟩ := hf
    rw [List.mem_filter] at hf1
    obtain ⟨hmem, hsub⟩ := hf1
    refine ⟨f, hmem, rfl, hen, ?_⟩
    intro l hl
    rw [hl] at hsub
    exact hsub
  · rintro ⟨f, hmem, rfl, hen, hsub⟩
    refine ⟨f, ?_, rfl⟩
    rw [List.mem_filter]
    refine ⟨?_, hen⟩
    rw [List.mem_filter]
    refine ⟨hmem, ?_⟩
    cases sub with
    | none => rfl
    | some l => exact hsub l rfl

/-- Claim C5: selectFilterIdsToUpdate includes a non-custom filter drawn
from the considered collection (the supplied subset, else the registry) in
the built-in id list iff it is installed and enabled and (forceUpdate is
true, or the filter has no lastCheckTime — undefined or zero, the falsy
values — or the elapsed time since lastCheckTime is at least the configured
update period in milliseconds, read from the settings state at call time);
it includes a custom filter from the custom store in the custom id list iff
the filter is enabled and, when the optional subset is supplied, it appears
in that subset (matched by id). -/
theorem selectFilterIdsToUpdate_spec (now : Int) (st : St) (force : Bool)
    (sub : Option (List Filter)) (i : Nat) :
    (i ∈ (selectFilterIdsToUpdate now st force sub).1 ↔
      ∃ f : Filter, f ∈ sub.getD st.filters ∧ f.filterId = i
        ∧ jsTruthy f.installed = true ∧ jsTruthy f.enabled = true
        ∧ (force = true ∨ f.lastCheckTime = none ∨ f.lastCheckTime = some 0
           ∨ ∃ t, f.lastCheckTime = some t ∧ now - t ≥ st.updatePeriodHours * 3600000)
        ∧ jsStrTruthy f.customUrl = false)
    ∧ (i ∈ (selectFilterIdsToUpdate now st force sub).2 ↔
      ∃ f : Filter, f ∈ st.customStore ∧ f.filterId = i ∧ jsTruthy f.enabled = true
        ∧ (∀ l, sub = some l → l.any (fun x => x.filterId = f.filterId) = true)) := by
  cases sub with
  | none =>
    exact ⟨mem_builtin_ids now (st.updatePeriodHours * 3600000) force st.filters i,
      mem_custom_ids st.customStore none i⟩
  | some l =>
    exact ⟨mem_builtin_ids now (st.updatePeriodHours * 3600000) force l i,
      mem_custom_ids st.customStore (some l) i⟩

/-- Registry fixture for the C5 witness: filter 3 installed and enabled,
last checked 30 minutes before the clock value 7200000 under a one-hour
period; custom filter 40 enabled in the custom store. -/
def c5st : St :=
  { filters := [{ mkFilter 3 1 with
      enabled := some true
      installed := some true
      lastCheckTime := some 5400000 }]
    groups := []
    customStore := [{ mkFilter 40 2 with
      enabled := some true
      customUrl := some "u" }]
    persisted := emptyPersisted
    updatePeriodHours := 1 }

/-- Witness for C5: the filter checked 30 minutes ago under a one-hour
period is excluded when forceUpdate is false and included when it is true;
the characterization is exercised at the forced call. -/
theorem selectFilterIdsToUpdate_spec_witness :
    (3 ∉ (selectFilterIdsToUpdate 7200000 c5st false none).1)
    ∧ (3 ∈ (selectFilterIdsToUpdate 7200000 c5st true none).1)
    ∧ ((3 ∈ (selectFilterIdsToUpdate 7200000 c5st true none).1 ↔
        ∃ f : Filter, f ∈ Option.getD none c5st.filters ∧ f.filterId = 3
          ∧ jsTruthy f.installed = true ∧ jsTruthy f.enabled = true
          ∧ (true = true ∨ f.lastCheckTime = none ∨ f.lastCheckTime = some 0
             ∨ ∃ t, f.lastCheckTime = some t ∧ 7200000 - t ≥ c5st.updatePeriodHours * 3600000)
          ∧ jsStrTruthy f.customUrl = false)
      ∧ (3 ∈ (selectFilterIdsToUpdate 7200000 c5st true none).2 ↔
        ∃ f : Filter, f ∈ c5st.customStore ∧ f.filterId = 3 ∧ jsTruthy f.enabled = true
          ∧ (∀ l, (none : Option (List Filter)) = some l →
              l.any (fun x => x.filterId = f.filterId) = true))) :=
  ⟨by decide, by decide, selectFilterIdsToUpdate_spec 7200000 c5st true none 3⟩

/-! ## Claim C10 -/

/-- Claim C10: addAndEnableFilters is a no-op for a null or empty list;
otherwise it de-duplicates the ids and processes them strictly one at a
time in order (the sequential recursion of addAndEnableList); when an
individual filter's install fails — addAntiBannerFilter reports success
false — that filter is not enabled (no filter enable-disable event is ever
emitted for it) and processing still continues with the next id: the run on
i :: rest equals the failed download of i followed by the full run on
rest. -/
theorem addAndEnableFilters_failure_isolation (cfg : Config) (be : Backend) (st : St)
    (i : Nat) (rest : List Nat) (f : Filter)
    (hf : getFilter st i = some f)
    (hni : jsTruthy f.installed = false)
    (hnl : jsTruthy f.loaded = false)
    (hfail : be.ruleFetch false i = false) :
    addAndEnableFilters cfg be st none = .ok (st, [])
    ∧ addAndEnableFilters cfg be st (some []) = .ok (st, [])
    ∧ (∀ l, l ≠ [] → addAndEnableFilters cfg be st (some l) =
        addAndEnableList cfg be st (removeDuplicates l))
    ∧ addAndEnableList cfg be st (i :: rest) =
        (match addAndEnableList cfg be (setFilter st { f with isDownloading := false }) rest with
         | .ok (st2, evs) =>
             .ok (st2, Event.startDownloadFilter i :: Event.errorDownloadFilter i :: evs)
         | .error e => .error e)
    ∧ (i ∉ rest → ∀ st2 evs, addAndEnableList cfg be st (i :: rest) = .ok (st2, evs) →
        Event.filterEnableDisable i ∉ evs) := by
  have hid : f.filterId = i := findFilter_eq_some_id hf
  have hload : loadFilterRules be false st (metaOfFilter f) =
      (setFilter st { f with isDownloading := false },
        [Event.startDownloadFilter i, Event.errorDownloadFilter i], false) := by
    have hg : getFilter st (metaOfFilter f).filterId = some f := by
      rw [metaOfFilter]
      dsimp only
      rw [hid]
      exact hf
    have hr : be.ruleFetch false f.filterId = false := by rw [hid]; exact hfail
    simp [loadFilterRules, hg, hr, hid, hfail]
  have haab : addAntiBannerFilter be st i =
      .ok (setFilter st { f with isDownloading := false },
        [Event.startDownloadFilter i, Event.errorDownloadFilter i], false) := by
    simp [addAntiBannerFilter, hf, hni, hnl, hload]
  have h4 : addAndEnableList cfg be st (i :: rest) =
      (match addAndEnableList cfg be (setFilter st { f with isDownloading := false }) rest with
       | .ok (st2, evs) =>
           .ok (st2, Event.startDownloadFilter i :: Event.errorDownloadFilter i :: evs)
       | .error e => .error e) := by
    rw [addAndEnableList, haab]
    simp only [Bool.false_eq_true, if_false]
    cases hr : addAndEnableList cfg be (setFilter st { f with isDownloading := false }) rest with
    | error e => simp [hr]
    | ok u =>
      obtain ⟨st3, e3⟩ := u
      simp [hr]
  refine ⟨rfl, rfl, ?_, h4, ?_⟩
  · intro l hl
    rw [addAndEnableFilters]
    rw [if_neg (fun hc => hl (List.length_eq_zero.mp hc))]
  · intro hnr st2 evs h
    rw [h4] at h
    cases hr : addAndEnableList cfg be (setFilter st { f with isDownloading := false }) rest with
    | error e => rw [hr] at h; cases h
    | ok u =>
      obtain ⟨st3, e3⟩ := u
      rw [hr] at h
      dsimp only at h
      cases h
      intro hmem
      rcases List.mem_cons.mp hmem with hmem | hmem
      · cases hmem
      · rcases List.mem_cons.mp hmem with hmem | hmem
        · cases hmem
        · exact hnr (addAndEnableList_event_scope hr i hmem)

/-- Registry fixture for the C10 witness: filter 1 neither installed nor
loaded, filter 2 already installed; the persisted state has nothing. -/
def c10st : St :=
  { filters := [{ mkFilter 1 1 with installed := some false, loaded := some false },
                { mkFilter 2 1 with installed := some true }]
    groups := [⟨1, none⟩]
    customStore := []
    persisted := emptyPersisted
    updatePeriodHours := 1 }

/-- Backend fixture for the C10 witness: every rule download fails. -/
def c10be : Backend :=
  { now := 0, metadataResponse := none, ruleFetch := fun _ _ => false
    customUpdate := fun _ => true }

/-- Witness for C10: the install of filter 1 fails, filter 1 is never
enabled, and the batch continues with filter 2. -/
theorem addAndEnableFilters_failure_isolation_witness :
    addAndEnableFilters ⟨10, 0⟩ c10be c10st none = .ok (c10st, [])
    ∧ addAndEnableFilters ⟨10, 0⟩ c10be c10st (some []) = .ok (c10st, [])
    ∧ (∀ l, l ≠ [] → addAndEnableFilters ⟨10, 0⟩ c10be c10st (some l) =
        addAndEnableList ⟨10, 0⟩ c10be c10st (removeDuplicates l))
    ∧ addAndEnableList ⟨10, 0⟩ c10be c10st (1 :: [2]) =
        (match addAndEnableList ⟨10, 0⟩ c10be
            (setFilter c10st { { mkFilter 1 1 with installed := some false, loaded := some false }
              with isDownloading := false }) [2] with
         | .ok (st2, evs) =>
             .ok (st2, Event.startDownloadFilter 1 :: Event.errorDownloadFilter 1 :: evs)
         | .error e => .error e)
    ∧ (1 ∉ [2] → ∀ st2 evs, addAndEnableList ⟨10, 0⟩ c10be c10st (1 :: [2]) = .ok (st2, evs) →
        Event.filterEnableDisable 1 ∉ evs) :=
  addAndEnableFilters_failure_isolation ⟨10, 0⟩ c10be c10st 1 [2]
    { mkFilter 1 1 with installed := some false, loaded := some false }
    (by decide) (by decide) (by decide) (by decide)

end AdGuard
